import Mathlib

/-!
Verification of the order-lifecycle engine of a point-of-sale backend
(`src/services/order.service.js`, with the product-update operation from
`src/services/category.service.js`).

The database state is embedded as a `Store` value; every service call is a
pure function `Store → args → Except String (result × Store)`, mirroring the
fact that each service call runs inside a single storage transaction: on a
thrown error nothing is persisted.
-/

namespace TcgPos

/-- Order lifecycle states, `enum OrderStatus` of `prisma/schema.prisma`. -/
inductive OrderStatus where
  | PENDING
  | PAYMENT_UPLOADED
  | PAYMENT_VERIFIED
  | COMPLETED
  | CANCELLED
deriving DecidableEq

/-- `model Product` (price is a JS number, embedded as `Int`; stock is `Int`,
the schema does not constrain it to be nonnegative). The category relation is
flattened to the category's name, which is all the reporting code reads. -/
structure Product where
  id : Nat
  name : String
  price : Int
  stock : Int
  categoryName : Option String
deriving DecidableEq

/-- `model PaymentMethodSetting` (the fields the order service reads). -/
structure PaymentMethodSetting where
  method : String
  name : String
  isEnabled : Bool
  requiresProof : Bool
deriving DecidableEq

/-- `model OrderItem`: product reference, quantity, price-snapshot subtotal. -/
structure OrderItem where
  productId : Nat
  quantity : Nat
  subtotal : Int
deriving DecidableEq

/-- `model Order` with its 1:1 payment proof flattened to the proof's
`fileUrl`, and `createdAt` abstracted to a day number (reporting only ever
buckets orders by calendar day). -/
structure Order where
  id : Nat
  customerName : String
  totalAmount : Int
  status : OrderStatus
  paymentMethod : String
  paymentProof : Option String
  orderItems : List OrderItem
  createdAtDay : Nat
deriving DecidableEq

/-- The persistent database: the tables the order service touches, the
autoincrement counter for order ids, and the current day of the clock. -/
structure Store where
  products : List Product
  paymentMethods : List PaymentMethodSetting
  orders : List Order
  nextOrderId : Nat
  today : Nat
deriving DecidableEq

/-- `prisma.product.findUnique({ where: { id } })`. -/
def Store.findProduct (s : Store) (pid : Nat) : Option Product :=
  s.products.find? (fun p => p.id == pid)

/-- `prisma.order.findUnique({ where: { id } })`. -/
def Store.findOrder (s : Store) (oid : Nat) : Option Order :=
  s.orders.find? (fun o => o.id == oid)

/-- `prisma.paymentMethodSetting.findFirst({ where: { method, isEnabled: true } })`. -/
def Store.findEnabledMethod (s : Store) (m : String) : Option PaymentMethodSetting :=
  s.paymentMethods.find? (fun pm => pm.method == m && pm.isEnabled)

/-- `prisma.paymentMethodSetting.findFirst({ where: { method } })`. -/
def Store.findMethod (s : Store) (m : String) : Option PaymentMethodSetting :=
  s.paymentMethods.find? (fun pm => pm.method == m)

/-- `prisma.order.update({ where: { id: o.id }, data: ... })`: replace the
stored row(s) with id `o.id` by `o`. -/
def Store.updateOrder (s : Store) (o : Order) : Store :=
  { s with orders := s.orders.map (fun x => if x.id == o.id then o else x) }

/-- `prisma.product.update({ where: { id }, data: { stock: { decrement } } })`. -/
def Store.decrementStock (s : Store) (pid : Nat) (qty : Nat) : Store :=
  { s with products := s.products.map (fun p =>
      if p.id == pid then { p with stock := p.stock - (qty : Int) } else p) }

/-- One line of `createOrder`'s `items` input. -/
structure OrderItemInput where
  productId : Nat
  quantity : Nat
deriving DecidableEq

/-- The per-item validation loop of `createOrder` (order.service.js lines
37-58): look each product up, fail on a missing product or on a line whose
quantity exceeds the product's current stock, and accumulate the running
total and the order-item rows with their price-snapshot subtotals. -/
def validateItems (s : Store) : List OrderItemInput → Except String (Int × List OrderItem)
  | [] => Except.ok (0, [])
  | item :: rest =>
    match s.findProduct item.productId with
    | none =>
      Except.error ("Product with ID " ++ toString item.productId ++ " not found")
    | some product =>
      if product.stock < (item.quantity : Int) then
        Except.error ("Insufficient stock for product: " ++ product.name)
      else
        match validateItems s rest with
        | Except.error e => Except.error e
        | Except.ok (total, acc) =>
          Except.ok (product.price * (item.quantity : Int) + total,
            { productId := product.id, quantity := item.quantity,
              subtotal := product.price * (item.quantity : Int) } :: acc)

/-- `createOrder` (order.service.js lines 13-90): reject an empty item list,
reject a payment method that is absent or disabled, validate every line,
then persist the order and its items in one transaction. The initial status
is `PAYMENT_VERIFIED` exactly when the chosen method is the one named
`CASH`, else `PENDING`. -/
def createOrder (s : Store) (customerName : String) (items : List OrderItemInput)
    (paymentMethod : String) : Except String (Order × Store) :=
  if items.isEmpty then
    Except.error "Order must contain at least one item"
  else
    match s.findEnabledMethod paymentMethod with
    | none => Except.error ("Payment method " ++ paymentMethod ++ " is not available")
    | some _ =>
      match validateItems s items with
      | Except.error e => Except.error e
      | Except.ok (totalAmount, orderItems) =>
        let initialStatus :=
          if paymentMethod == "CASH" then OrderStatus.PAYMENT_VERIFIED
          else OrderStatus.PENDING
        let order : Order :=
          { id := s.nextOrderId, customerName := customerName,
            totalAmount := totalAmount, status := initialStatus,
            paymentMethod := paymentMethod, paymentProof := none,
            orderItems := orderItems, createdAtDay := s.today }
        Except.ok (order,
          { s with orders := s.orders ++ [order], nextOrderId := s.nextOrderId + 1 })

/-- `uploadPaymentProof` (order.service.js lines 98-181): only a `PENDING`
order of a method whose setting has `requiresProof` may receive a proof; the
stored file URL is replaced and the order moves to `PAYMENT_UPLOADED`. -/
def uploadPaymentProof (s : Store) (orderId : Nat) (filename : String) :
    Except String (Order × Store) :=
  match s.findOrder orderId with
  | none => Except.error "Order not found"
  | some order =>
    if order.status ≠ OrderStatus.PENDING then
      Except.error "Payment proof can only be uploaded for pending orders"
    else
      match s.findMethod order.paymentMethod with
      | none =>
        Except.error ("Payment proof upload is not required for " ++
          order.paymentMethod ++ " payment method")
      | some setting =>
        if setting.requiresProof = false then
          Except.error ("Payment proof upload is not required for " ++
            order.paymentMethod ++ " payment method")
        else
          let updated := { order with
            status := OrderStatus.PAYMENT_UPLOADED,
            paymentProof := some ("/uploads/payment-proofs/" ++ filename) }
          Except.ok (updated, s.updateOrder updated)

/-- `verifyPayment` (order.service.js lines 188-245): for proof-requiring
methods the order must be `PAYMENT_UPLOADED` with a proof attached; for the
other methods it must be `PENDING` or already `PAYMENT_VERIFIED`. On success
the status becomes `PAYMENT_VERIFIED`. -/
def verifyPayment (s : Store) (orderId : Nat) : Except String (Order × Store) :=
  match s.findOrder orderId with
  | none => Except.error "Order not found"
  | some order =>
    match s.findMethod order.paymentMethod with
    | none =>
      Except.error ("Payment method " ++ order.paymentMethod ++
        " configuration not found")
    | some setting =>
      if setting.requiresProof then
        if order.status ≠ OrderStatus.PAYMENT_UPLOADED then
          Except.error "Only orders with uploaded payment can be verified"
        else if order.paymentProof.isNone then
          Except.error ("No payment proof found for this " ++
            order.paymentMethod ++ " order")
        else
          let updated := { order with status := OrderStatus.PAYMENT_VERIFIED }
          Except.ok (updated, s.updateOrder updated)
      else
        if order.status ≠ OrderStatus.PENDING ∧
            order.status ≠ OrderStatus.PAYMENT_VERIFIED then
          Except.error "Only pending or already verified orders can be processed"
        else
          let updated := { order with status := OrderStatus.PAYMENT_VERIFIED }
          Except.ok (updated, s.updateOrder updated)

/-- The stock-decrement loop inside `completeOrder`'s transaction. -/
def applyDecrements (s : Store) (items : List OrderItem) : Store :=
  items.foldl (fun st item => st.decrementStock item.productId item.quantity) s

/-- `completeOrder` (order.service.js lines 252-303): only a
`PAYMENT_VERIFIED` order can be completed; in one transaction every item's
product stock is decremented by the item's quantity and the status becomes
`COMPLETED`. -/
def completeOrder (s : Store) (orderId : Nat) : Except String (Order × Store) :=
  match s.findOrder orderId with
  | none => Except.error "Order not found"
  | some order =>
    if order.status ≠ OrderStatus.PAYMENT_VERIFIED then
      Except.error "Only verified orders can be completed"
    else
      let s1 := applyDecrements s order.orderItems
      let updated := { order with status := OrderStatus.COMPLETED }
      Except.ok (updated, s1.updateOrder updated)

/-- `cancelOrder` (order.service.js lines 310-342): an order may be cancelled
exactly from `PENDING`, `PAYMENT_UPLOADED` or `PAYMENT_VERIFIED`. -/
def cancelOrder (s : Store) (orderId : Nat) : Except String (Order × Store) :=
  match s.findOrder orderId with
  | none => Except.error "Order not found"
  | some order =>
    if order.status = OrderStatus.PENDING ∨
        order.status = OrderStatus.PAYMENT_UPLOADED ∨
        order.status = OrderStatus.PAYMENT_VERIFIED then
      let updated := { order with status := OrderStatus.CANCELLED }
      Except.ok (updated, s.updateOrder updated)
    else
      Except.error "Only pending, payment uploaded, or payment verified orders can be cancelled"

/-- The price branch of `updateProduct` (category.service.js lines 292-335):
set a found product's price, touching nothing else. -/
def updateProductPrice (s : Store) (productId : Nat) (newPrice : Int) :
    Except String Store :=
  match s.findProduct productId with
  | none => Except.error "Product not found"
  | some _ =>
    Except.ok { s with products := s.products.map (fun p =>
      if p.id == productId then { p with price := newPrice } else p) }

instance {e a : Type} [DecidableEq e] [DecidableEq a] : DecidableEq (Except e a) :=
  fun x y =>
  match x, y with
  | Except.ok u, Except.ok v =>
    if h : u = v then isTrue (by rw [h])
    else isFalse (by intro hc; cases hc; exact h rfl)
  | Except.error u, Except.error v =>
    if h : u = v then isTrue (by rw [h])
    else isFalse (by intro hc; cases hc; exact h rfl)
  | Except.ok _, Except.error _ => isFalse (by intro hc; cases hc)
  | Except.error _, Except.ok _ => isFalse (by intro hc; cases hc)

/-- The store a service call leaves behind: the new store on success, the
unchanged one when the transaction threw. -/
def storeAfter (s : Store) (r : Except String (Order × Store)) : Store :=
  match r with
  | Except.ok (_, s2) => s2
  | Except.error _ => s

/-- One row of the daily report's per-product breakdown. -/
structure ProductSalesEntry where
  productId : Nat
  name : String
  categoryName : String
  price : Int
  quantitySold : Nat
  revenue : Int
deriving DecidableEq

/-- One row of the daily report's per-payment-method breakdown. -/
structure PaymentMethodEntry where
  method : String
  name : String
  count : Nat
  amount : Int
deriving DecidableEq

/-- One row of the daily report's per-category breakdown. -/
structure CategorySalesEntry where
  name : String
  itemsSold : Nat
  revenue : Int
deriving DecidableEq

/-- The dummy row a dangling product reference would yield; with referential
integrity (every persisted item's product exists) it is never used. -/
def Store.productOf (s : Store) (pid : Nat) : Product :=
  (s.findProduct pid).getD
    { id := pid, name := "", price := 0, stock := 0, categoryName := none }

/-- Accumulate one order item into the `productSalesMap` of
`getDailySalesReport` (order.service.js lines 699-720): JS objects keep
first-insertion key order, so a new product is appended at the end. -/
def upsertProductSale (product : Product) (item : OrderItem) :
    List ProductSalesEntry → List ProductSalesEntry
  | [] =>
    [{ productId := product.id, name := product.name,
       categoryName := product.categoryName.getD "Unknown",
       price := product.price, quantitySold := item.quantity,
       revenue := item.subtotal }]
  | e :: rest =>
    if e.productId == product.id then
      { e with quantitySold := e.quantitySold + item.quantity,
               revenue := e.revenue + item.subtotal } :: rest
    else
      e :: upsertProductSale product item rest

/-- Accumulate one order item into the `categoryMap` of `getDailySalesReport`
(order.service.js lines 760-776). -/
def upsertCategorySale (categoryName : String) (item : OrderItem) :
    List CategorySalesEntry → List CategorySalesEntry
  | [] => [{ name := categoryName, itemsSold := item.quantity, revenue := item.subtotal }]
  | e :: rest =>
    if e.name == categoryName then
      { e with itemsSold := e.itemsSold + item.quantity,
               revenue := e.revenue + item.subtotal } :: rest
    else
      e :: upsertCategorySale categoryName item rest

/-- Accumulate one order into the `prisma.order.groupBy({ by: [paymentMethod] })`
aggregation of `getDailySalesReport` (order.service.js lines 726-739), groups
listed in first-appearance order; no ordering clause is given to `groupBy`. -/
def upsertPaymentGroup (o : Order) :
    List (String × Nat × Int) → List (String × Nat × Int)
  | [] => [(o.paymentMethod, 1, o.totalAmount)]
  | (m, c, a) :: rest =>
    if m == o.paymentMethod then (m, c + 1, a + o.totalAmount) :: rest
    else (m, c, a) :: upsertPaymentGroup o rest

/-- Insert `x` into a list kept in nonincreasing `f`-order, after any entry of
equal key: together with `sortDescBy` this is the stable JS
`.sort((a, b) => b.k - a.k)`. -/
def insertDescBy {α : Type} (f : α → Int) (x : α) : List α → List α
  | [] => [x]
  | y :: ys => if f y < f x then x :: y :: ys else y :: insertDescBy f x ys

/-- Stable descending sort by an `Int` key. -/
def sortDescBy {α : Type} (f : α → Int) (l : List α) : List α :=
  l.foldl (fun acc x => insertDescBy f x acc) []

/-- `true` when the `f`-keys along the list never increase. -/
def pairwiseDescBy {α : Type} (f : α → Int) : List α → Bool
  | [] => true
  | [_] => true
  | a :: b :: rest => (f b ≤ f a : Bool) && pairwiseDescBy f (b :: rest)

/-- The result record of `getDailySalesReport` (the per-order echo list is
derived data and omitted). -/
structure DailySalesReport where
  date : Nat
  totalSales : Int
  totalOrders : Nat
  totalItems : Nat
  paymentMethods : List PaymentMethodEntry
  productSales : List ProductSalesEntry
  categorySales : List CategorySalesEntry
deriving DecidableEq

/-- `getDailySalesReport` (order.service.js lines 660-796): over the day's
COMPLETED orders, totals plus breakdowns by product (sorted descending by
revenue), by payment method (grouped, never sorted), and by category (sorted
descending by revenue). -/
def getDailySalesReport (s : Store) (date : Nat) : DailySalesReport :=
  let completedOrders := s.orders.filter
    (fun o => o.status == OrderStatus.COMPLETED && o.createdAtDay == date)
  let totalSales := completedOrders.foldl (fun sum o => sum + o.totalAmount) 0
  let productSalesRaw := completedOrders.foldl
    (fun acc o => o.orderItems.foldl
      (fun acc2 item => upsertProductSale (s.productOf item.productId) item acc2) acc) []
  let productSales := sortDescBy (fun e => e.revenue) productSalesRaw
  let totalItems := productSales.foldl (fun sum e => sum + e.quantitySold) 0
  let paymentGroups := completedOrders.foldl (fun acc o => upsertPaymentGroup o acc) []
  let paymentMethods := paymentGroups.map (fun g =>
    { method := g.1,
      name := match s.findMethod g.1 with
        | some setting => setting.name
        | none => g.1,
      count := g.2.1, amount := g.2.2 })
  let categoryRaw := completedOrders.foldl
    (fun acc o => o.orderItems.foldl
      (fun acc2 item =>
        upsertCategorySale ((s.productOf item.productId).categoryName.getD "Unknown")
          item acc2) acc) []
  let categorySales := sortDescBy (fun e => e.revenue) categoryRaw
  { date := date, totalSales := totalSales, totalOrders := completedOrders.length,
    totalItems := totalItems, paymentMethods := paymentMethods,
    productSales := productSales, categorySales := categorySales }

/-- Total quantity the items of an order request for product `pid`. -/
def qtyFor (pid : Nat) : List OrderItem → Int
  | [] => 0
  | item :: rest =>
    (if item.productId == pid then (item.quantity : Int) else 0) + qtyFor pid rest

/-- The two terminal lifecycle states. -/
def isTerminal (st : OrderStatus) : Prop :=
  st = OrderStatus.COMPLETED ∨ st = OrderStatus.CANCELLED

instance (st : OrderStatus) : Decidable (isTerminal st) := by
  unfold isTerminal; infer_instance

/-- The statuses from which `cancelOrder` is allowed. -/
def cancellable (st : OrderStatus) : Prop :=
  st = OrderStatus.PENDING ∨ st = OrderStatus.PAYMENT_UPLOADED ∨
    st = OrderStatus.PAYMENT_VERIFIED

instance (st : OrderStatus) : Decidable (cancellable st) := by
  unfold cancellable; infer_instance

/-! Concrete stores used to instantiate the theorems. -/

/-- A bank-transfer method setting: enabled, proof required. -/
def bankM : PaymentMethodSetting :=
  { method := "BANK_TRANSFER", name := "Bank Transfer", isEnabled := true,
    requiresProof := true }

/-- A cash method setting: enabled, no proof required. -/
def cashM : PaymentMethodSetting :=
  { method := "CASH", name := "Cash", isEnabled := true, requiresProof := false }

/-- An e-wallet method setting: enabled, no proof required, not named CASH. -/
def ewalletM : PaymentMethodSetting :=
  { method := "EWALLET", name := "E-Wallet", isEnabled := true, requiresProof := false }

/-- A catalog product with stock 10. -/
def prodP : Product :=
  { id := 1, name := "P", price := 5, stock := 10, categoryName := some "TCG" }

/-- A payment-verified bank-transfer order of 4 units of product 1. -/
def exOrder1 : Order :=
  { id := 1, customerName := "A", totalAmount := 20,
    status := OrderStatus.PAYMENT_VERIFIED, paymentMethod := "BANK_TRANSFER",
    paymentProof := some "/uploads/payment-proofs/p.png",
    orderItems := [{ productId := 1, quantity := 4, subtotal := 20 }],
    createdAtDay := 0 }

/-- A pending bank-transfer order of 1 unit of product 1. -/
def exOrder2 : Order :=
  { id := 2, customerName := "B", totalAmount := 5, status := OrderStatus.PENDING,
    paymentMethod := "BANK_TRANSFER", paymentProof := none,
    orderItems := [{ productId := 1, quantity := 1, subtotal := 5 }],
    createdAtDay := 0 }

/-- A completed order. -/
def exOrder3 : Order :=
  { id := 3, customerName := "C", totalAmount := 5, status := OrderStatus.COMPLETED,
    paymentMethod := "CASH", paymentProof := none,
    orderItems := [{ productId := 1, quantity := 1, subtotal := 5 }],
    createdAtDay := 0 }

/-- A cancelled order. -/
def exOrder4 : Order :=
  { id := 4, customerName := "D", totalAmount := 5, status := OrderStatus.CANCELLED,
    paymentMethod := "BANK_TRANSFER", paymentProof := none,
    orderItems := [{ productId := 1, quantity := 1, subtotal := 5 }],
    createdAtDay := 0 }

/-- The main example store: one product, three enabled methods, one order in
each of four lifecycle states. -/
def exS : Store :=
  { products := [prodP], paymentMethods := [bankM, cashM, ewalletM],
    orders := [exOrder1, exOrder2, exOrder3, exOrder4], nextOrderId := 5, today := 0 }

/-- A store whose only product has stock 2 and no orders yet. -/
def lowStockS : Store :=
  { products := [{ id := 1, name := "P", price := 5, stock := 2, categoryName := some "TCG" }],
    paymentMethods := [bankM, cashM], orders := [], nextOrderId := 1, today := 0 }

/-- A store with two completed orders on day 0 whose payment-method groups
come out in ascending amount order. -/
def reportS : Store :=
  { products := [prodP], paymentMethods := [bankM, cashM],
    orders :=
      [{ id := 1, customerName := "A", totalAmount := 5,
         status := OrderStatus.COMPLETED, paymentMethod := "BANK_TRANSFER",
         paymentProof := none,
         orderItems := [{ productId := 1, quantity := 1, subtotal := 5 }],
         createdAtDay := 0 },
       { id := 2, customerName := "B", totalAmount := 10,
         status := OrderStatus.COMPLETED, paymentMethod := "CASH",
         paymentProof := none,
         orderItems := [{ productId := 1, quantity := 2, subtotal := 10 }],
         createdAtDay := 0 }],
    nextOrderId := 3, today := 0 }

/-- The order the CASH example call below creates. -/
def exCashOrder : Order :=
  { id := 5, customerName := "A", totalAmount := 5,
    status := OrderStatus.PAYMENT_VERIFIED, paymentMethod := "CASH",
    paymentProof := none,
    orderItems := [{ productId := 1, quantity := 1, subtotal := 5 }],
    createdAtDay := 0 }

/-- The store the CASH example call below leaves behind. -/
def exCashStore : Store :=
  { exS with orders := exS.orders ++ [exCashOrder], nextOrderId := 6 }

/-- `exOrder1` after completion. -/
def exCompletedOrder : Order := { exOrder1 with status := OrderStatus.COMPLETED }

/-- The store left after completing `exOrder1` in `exS`. -/
def exCompletedStore : Store := storeAfter exS (completeOrder exS 1)

/-- The store after the accepted double-line CASH order on `lowStockS`. -/
def overSoldS1 : Store :=
  storeAfter lowStockS (createOrder lowStockS "A" [⟨1, 2⟩, ⟨1, 2⟩] "CASH")

/-- The store after additionally completing that order: stock goes negative. -/
def overSoldS2 : Store := storeAfter overSoldS1 (completeOrder overSoldS1 1)

/-! Basic lemmas about the embedding. -/

theorem findOrder_mem {s : Store} {oid : Nat} {o : Order}
    (h : s.findOrder oid = some o) : o ∈ s.orders ∧ o.id = oid := by
  refine ⟨List.mem_of_find?_eq_some h, ?_⟩
  simpa using List.find?_some h

theorem applyDecrements_orders (items : List OrderItem) (s : Store) :
    (applyDecrements s items).orders = s.orders := by
  induction items generalizing s with
  | nil => rfl
  | cons item rest ih =>
    simpa [applyDecrements, Store.decrementStock] using
      ih (s.decrementStock item.productId item.quantity)

theorem applyDecrements_products (items : List OrderItem) (s : Store) :
    (applyDecrements s items).products =
      s.products.map (fun p => { p with stock := p.stock - qtyFor p.id items }) := by
  induction items generalizing s with
  | nil =>
    have h : (fun p : Product => { p with stock := p.stock - qtyFor p.id [] }) = id := by
      funext p
      simp [qtyFor]
    simp [applyDecrements, h]
  | cons item rest ih =>
    have hstep : (applyDecrements s (item :: rest)).products =
        (applyDecrements (s.decrementStock item.productId item.quantity) rest).products := rfl
    rw [hstep, ih]
    simp only [Store.decrementStock, List.map_map]
    congr 1
    funext p
    by_cases hp : p.id = item.productId
    · simp [Function.comp, qtyFor, hp, sub_sub]
    · simp [Function.comp, qtyFor, hp, Ne.symm hp]


/-! Inversions of the success case of each operation. -/

theorem createOrder_ok_inv {s : Store} {cn : String} {items : List OrderItemInput}
    {m : String} {o2 : Order} {s2 : Store}
    (h : createOrder s cn items m = Except.ok (o2, s2)) :
    ∃ total oitems setting,
      items ≠ [] ∧
      s.findEnabledMethod m = some setting ∧
      validateItems s items = Except.ok (total, oitems) ∧
      o2 = { id := s.nextOrderId, customerName := cn, totalAmount := total,
             status := if m == "CASH" then OrderStatus.PAYMENT_VERIFIED
                       else OrderStatus.PENDING,
             paymentMethod := m, paymentProof := none, orderItems := oitems,
             createdAtDay := s.today } ∧
      s2 = { s with
             orders := s.orders ++ [o2], nextOrderId := s.nextOrderId + 1 } := by
  unfold createOrder at h
  split at h
  · simp at h
  next hemp =>
    split at h
    · simp at h
    next setting hm =>
      split at h
      · simp at h
      next total oitems hv =>
        simp only [Except.ok.injEq, Prod.mk.injEq] at h
        obtain ⟨ho, hs⟩ := h
        refine ⟨total, oitems, setting, by simpa using hemp, hm, hv, ho.symm, ?_⟩
        rw [← hs, ho]

theorem uploadPaymentProof_ok_inv {s : Store} {oid : Nat} {f : String}
    {o2 : Order} {s2 : Store}
    (h : uploadPaymentProof s oid f = Except.ok (o2, s2)) :
    ∃ order1, s.findOrder oid = some order1 ∧
      order1.status = OrderStatus.PENDING ∧
      o2 = { order1 with
             status := OrderStatus.PAYMENT_UPLOADED,
             paymentProof := some ("/uploads/payment-proofs/" ++ f) } ∧
      s2 = s.updateOrder o2 := by
  unfold uploadPaymentProof at h
  split at h
  · simp at h
  next order1 hf =>
    split at h
    · simp at h
    next hst =>
      split at h
      · simp at h
      next setting hm =>
        split at h
        · simp at h
        next hrp =>
          simp only [Except.ok.injEq, Prod.mk.injEq] at h
          obtain ⟨ho, hs⟩ := h
          exact ⟨order1, hf, not_not.mp hst, ho.symm, by rw [← hs, ho]⟩

theorem verifyPayment_ok_inv {s : Store} {oid : Nat} {o2 : Order} {s2 : Store}
    (h : verifyPayment s oid = Except.ok (o2, s2)) :
    ∃ order1, s.findOrder oid = some order1 ∧
      (order1.status = OrderStatus.PAYMENT_UPLOADED ∨
        order1.status = OrderStatus.PENDING ∨
        order1.status = OrderStatus.PAYMENT_VERIFIED) ∧
      o2 = { order1 with status := OrderStatus.PAYMENT_VERIFIED } ∧
      s2 = s.updateOrder o2 := by
  unfold verifyPayment at h
  split at h
  · simp at h
  next order1 hf =>
    split at h
    · simp at h
    next setting hm =>
      split at h
      · -- requiresProof = true
        split at h
        · simp at h
        next hst =>
          split at h
          · simp at h
          · simp only [Except.ok.injEq, Prod.mk.injEq] at h
            obtain ⟨ho, hs⟩ := h
            exact ⟨order1, hf, Or.inl (not_not.mp hst), ho.symm, by rw [← hs, ho]⟩
      · -- requiresProof = false
        split at h
        · simp at h
        next hst =>
          simp only [Except.ok.injEq, Prod.mk.injEq] at h
          obtain ⟨ho, hs⟩ := h
          refine ⟨order1, hf, ?_, ho.symm, by rw [← hs, ho]⟩
          rcases not_and_or.mp hst with h1 | h2
          · exact Or.inr (Or.inl (not_not.mp h1))
          · exact Or.inr (Or.inr (not_not.mp h2))

theorem completeOrder_ok_inv {s : Store} {oid : Nat} {o2 : Order} {s2 : Store}
    (h : completeOrder s oid = Except.ok (o2, s2)) :
    ∃ order1, s.findOrder oid = some order1 ∧
      order1.status = OrderStatus.PAYMENT_VERIFIED ∧
      o2 = { order1 with status := OrderStatus.COMPLETED } ∧
      s2 = (applyDecrements s order1.orderItems).updateOrder o2 := by
  unfold completeOrder at h
  split at h
  · simp at h
  next order1 hf =>
    split at h
    · simp at h
    next hst =>
      simp only [Except.ok.injEq, Prod.mk.injEq] at h
      obtain ⟨ho, hs⟩ := h
      exact ⟨order1, hf, not_not.mp hst, ho.symm, by rw [← hs, ho]⟩

theorem cancelOrder_ok_inv {s : Store} {oid : Nat} {o2 : Order} {s2 : Store}
    (h : cancelOrder s oid = Except.ok (o2, s2)) :
    ∃ order1, s.findOrder oid = some order1 ∧
      cancellable order1.status ∧
      o2 = { order1 with status := OrderStatus.CANCELLED } ∧
      s2 = s.updateOrder o2 := by
  unfold cancelOrder at h
  split at h
  · simp at h
  next order1 hf =>
    split at h
    next hst =>
      simp only [Except.ok.injEq, Prod.mk.injEq] at h
      obtain ⟨ho, hs⟩ := h
      exact ⟨order1, hf, hst, ho.symm, by rw [← hs, ho]⟩
    · simp at h

/-! Lemmas about item validation, id-uniqueness, and sorting. -/

theorem validateItems_ok_inv {s : Store} :
    ∀ {items : List OrderItemInput} {total : Int} {oitems : List OrderItem},
    validateItems s items = Except.ok (total, oitems) →
    total = (oitems.map (fun it => it.subtotal)).sum ∧
    List.Forall₂ (fun (inp : OrderItemInput) (it : OrderItem) =>
      ∃ p, s.findProduct inp.productId = some p ∧
        (inp.quantity : Int) ≤ p.stock ∧
        it.productId = p.id ∧ it.quantity = inp.quantity ∧
        it.subtotal = p.price * (inp.quantity : Int)) items oitems := by
  intro items
  induction items with
  | nil =>
    intro total oitems h
    simp only [validateItems, Except.ok.injEq, Prod.mk.injEq] at h
    obtain ⟨ht, ho⟩ := h
    subst ht; subst ho
    exact ⟨rfl, List.Forall₂.nil⟩
  | cons item rest ih =>
    intro total oitems h
    unfold validateItems at h
    split at h
    · simp at h
    next product hfp =>
      split at h
      · simp at h
      next hstock =>
        split at h
        · simp at h
        next t acc hrest =>
          simp only [Except.ok.injEq, Prod.mk.injEq] at h
          obtain ⟨ht, ho⟩ := h
          obtain ⟨hsum, hall⟩ := ih hrest
          subst ho
          constructor
          · simp [← ht, hsum]
          · refine List.Forall₂.cons ⟨product, hfp, not_lt.mp hstock, rfl, rfl, rfl⟩ hall

theorem validateItems_error_inv {s : Store} :
    ∀ {items : List OrderItemInput} {e : String},
    validateItems s items = Except.error e →
    (∃ inp ∈ items, s.findProduct inp.productId = none ∧
        e = "Product with ID " ++ toString inp.productId ++ " not found") ∨
    (∃ inp ∈ items, ∃ p, s.findProduct inp.productId = some p ∧
        p.stock < (inp.quantity : Int) ∧
        e = "Insufficient stock for product: " ++ p.name) := by
  intro items
  induction items with
  | nil => intro e h; simp [validateItems] at h
  | cons item rest ih =>
    intro e h
    unfold validateItems at h
    split at h
    next hfp =>
      simp only [Except.error.injEq] at h
      exact Or.inl ⟨item, List.mem_cons_self item rest, hfp, h.symm⟩
    next product hfp =>
      split at h
      next hstock =>
        simp only [Except.error.injEq] at h
        exact Or.inr ⟨item, List.mem_cons_self item rest, product, hfp, hstock, h.symm⟩
      · split at h
        next e2 hrest =>
          simp only [Except.error.injEq] at h
          subst h
          rcases ih hrest with ⟨inp, hmem, hrest2⟩ | ⟨inp, hmem, hrest2⟩
          · exact Or.inl ⟨inp, List.mem_cons_of_mem item hmem, hrest2⟩
          · exact Or.inr ⟨inp, List.mem_cons_of_mem item hmem, hrest2⟩
        · simp at h

theorem order_unique {orders : List Order}
    (hnodup : (orders.map (fun o => o.id)).Nodup)
    {o1 o2 : Order} (h1 : o1 ∈ orders) (h2 : o2 ∈ orders)
    (h : o1.id = o2.id) : o1 = o2 :=
  List.inj_on_of_nodup_map hnodup h1 h2 h

theorem map_update_preserves {orders : List Order} {u order1 : Order}
    (hnodup : (orders.map (fun o => o.id)).Nodup)
    (hmem : order1 ∈ orders) (hid : u.id = order1.id)
    (hta : u.totalAmount = order1.totalAmount)
    (hoi : u.orderItems = order1.orderItems) :
    ∀ o1 ∈ orders, ∃ o3 ∈ orders.map (fun x => if x.id == u.id then u else x),
      o3.id = o1.id ∧ o3.totalAmount = o1.totalAmount ∧
      o3.orderItems = o1.orderItems := by
  intro o1 h1
  by_cases hcase : o1.id = u.id
  · have ho1 : o1 = order1 := order_unique hnodup h1 hmem (hcase.trans hid)
    refine ⟨u, ?_, hcase.symm, ho1 ▸ hta, ho1 ▸ hoi⟩
    have himg := List.mem_map_of_mem (fun x => if x.id == u.id then u else x) h1
    simpa [hcase] using himg
  · refine ⟨o1, ?_, rfl, rfl, rfl⟩
    have himg := List.mem_map_of_mem (fun x => if x.id == u.id then u else x) h1
    simpa [hcase] using himg

theorem map_update_keeps_terminal {orders : List Order} {u order1 : Order}
    (hnodup : (orders.map (fun o => o.id)).Nodup)
    (hmem : order1 ∈ orders) (hid : u.id = order1.id)
    (hnt : ¬ isTerminal order1.status) :
    ∀ o1 ∈ orders, isTerminal o1.status →
      o1 ∈ orders.map (fun x => if x.id == u.id then u else x) := by
  intro o1 h1 hterm
  have hne : o1.id ≠ u.id := by
    intro hcase
    have ho1 : o1 = order1 := order_unique hnodup h1 hmem (hcase.trans hid)
    exact hnt (ho1 ▸ hterm)
  have himg := List.mem_map_of_mem (fun x => if x.id == u.id then u else x) h1
  simpa [hne] using himg

theorem mem_insertDescBy {α : Type} (f : α → Int) (x b : α) :
    ∀ (l : List α), b ∈ insertDescBy f x l ↔ b = x ∨ b ∈ l := by
  intro l
  induction l with
  | nil => simp [insertDescBy]
  | cons y ys ih =>
    by_cases hlt : f y < f x
    · simp [insertDescBy, hlt]
    · simp only [insertDescBy, if_neg hlt, List.mem_cons, ih]
      tauto

theorem pairwise_insertDescBy {α : Type} (f : α → Int) (x : α) :
    ∀ (l : List α), l.Pairwise (fun a b => f b ≤ f a) →
    (insertDescBy f x l).Pairwise (fun a b => f b ≤ f a) := by
  intro l
  induction l with
  | nil => intro _; simp [insertDescBy]
  | cons y ys ih =>
    intro h
    rw [List.pairwise_cons] at h
    obtain ⟨hy, hys⟩ := h
    by_cases hlt : f y < f x
    · rw [insertDescBy, if_pos hlt]
      refine List.pairwise_cons.mpr ⟨?_, List.pairwise_cons.mpr ⟨hy, hys⟩⟩
      intro b hb
      rcases List.mem_cons.mp hb with rfl | hb2
      · exact le_of_lt hlt
      · exact le_trans (hy b hb2) (le_of_lt hlt)
    · rw [insertDescBy, if_neg hlt]
      refine List.pairwise_cons.mpr ⟨?_, ih hys⟩
      intro b hb
      rcases (mem_insertDescBy f x b ys).mp hb with rfl | hb2
      · exact not_lt.mp hlt
      · exact hy b hb2

theorem sortDescBy_pairwise {α : Type} (f : α → Int) (l : List α) :
    (sortDescBy f l).Pairwise (fun a b => f b ≤ f a) := by
  have aux : ∀ (m : List α) (acc : List α),
      acc.Pairwise (fun a b => f b ≤ f a) →
      (m.foldl (fun acc x => insertDescBy f x acc) acc).Pairwise
        (fun a b => f b ≤ f a) := by
    intro m
    induction m with
    | nil => intro acc h; exact h
    | cons x xs ihm =>
      intro acc h
      exact ihm (insertDescBy f x acc) (pairwise_insertDescBy f x acc h)
  exact aux l [] (by simp)

/-! The claims. -/

/-- C1: for every order whose status is PAYMENT_VERIFIED, `completeOrder`
succeeds, sets the order's status to COMPLETED in the stored orders, and
decrements every product's stock by the total quantity the order's items
request of it, all inside the single returned state; the error case returns
no state at all, so the decrements and the status update happen together or
not at all. -/
theorem C1_completeOrder_decrements_stock (s : Store) (orderId : Nat) (order : Order)
    (hfind : s.findOrder orderId = some order)
    (hst : order.status = OrderStatus.PAYMENT_VERIFIED) :
    ∃ s2 : Store,
      completeOrder s orderId =
        Except.ok ({ order with status := OrderStatus.COMPLETED }, s2) ∧
      s2.products = s.products.map
        (fun p => { p with stock := p.stock - qtyFor p.id order.orderItems }) ∧
      s2.orders = s.orders.map (fun o =>
        if o.id == order.id then { order with status := OrderStatus.COMPLETED }
        else o) := by
  refine ⟨(applyDecrements s order.orderItems).updateOrder
      { order with status := OrderStatus.COMPLETED }, ?_, ?_, ?_⟩
  · simp [completeOrder, hfind, hst]
  · simpa [Store.updateOrder] using applyDecrements_products order.orderItems s
  · simp [Store.updateOrder, applyDecrements_orders]

/-- C1 witness: completing the verified 4-unit order on the stock-10 product
of the example store. -/
theorem C1_witness :
    ∃ s2 : Store,
      completeOrder exS 1 =
        Except.ok ({ exOrder1 with status := OrderStatus.COMPLETED }, s2) ∧
      s2.products = exS.products.map
        (fun p => { p with stock := p.stock - qtyFor p.id exOrder1.orderItems }) ∧
      s2.orders = exS.orders.map (fun o =>
        if o.id == exOrder1.id then { exOrder1 with status := OrderStatus.COMPLETED }
        else o) :=
  C1_completeOrder_decrements_stock exS 1 exOrder1 (by decide) (by decide)

/-- C4: `completeOrder` on an order whose status is not PAYMENT_VERIFIED
fails with the invalid-state error and leaves the store unchanged. -/
theorem C4_completeOrder_invalid_state (s : Store) (orderId : Nat) (order : Order)
    (hfind : s.findOrder orderId = some order)
    (hst : order.status ≠ OrderStatus.PAYMENT_VERIFIED) :
    completeOrder s orderId = Except.error "Only verified orders can be completed" ∧
    storeAfter s (completeOrder s orderId) = s := by
  have h : completeOrder s orderId =
      Except.error "Only verified orders can be completed" := by
    simp [completeOrder, hfind, hst]
  exact ⟨h, by simp [h, storeAfter]⟩

/-- C4 witness: completing the pending order of the example store fails. -/
theorem C4_witness :
    completeOrder exS 2 = Except.error "Only verified orders can be completed" ∧
    storeAfter exS (completeOrder exS 2) = exS :=
  C4_completeOrder_invalid_state exS 2 exOrder2 (by decide) (by decide)

/-- C2 counterexample: EWALLET is enabled with requiresProof = false, yet the
order it creates starts in PENDING, not PAYMENT_VERIFIED: the initial status
is not determined by the requiresProof flag. -/
theorem C2_counterexample :
    (exS.findEnabledMethod "EWALLET").map (fun pm => pm.requiresProof) = some false ∧
    (createOrder exS "A" [⟨1, 1⟩] "EWALLET").toOption.map (fun r => r.1.status) =
      some OrderStatus.PENDING := by decide

/-- C2 (amended): the initial status of a created order is PAYMENT_VERIFIED
exactly when the chosen payment method is the one named CASH, and PENDING for
every other method; the method's requiresProof flag is not consulted. -/
theorem C2_initial_status_cash_only (s : Store) (cn : String)
    (items : List OrderItemInput) (m : String) (o2 : Order) (s2 : Store)
    (h : createOrder s cn items m = Except.ok (o2, s2)) :
    o2.status = if m == "CASH" then OrderStatus.PAYMENT_VERIFIED
                else OrderStatus.PENDING := by
  obtain ⟨total, oitems, setting, _, _, _, ho, _⟩ := createOrder_ok_inv h
  rw [ho]

/-- C2 witness: a CASH order starts PAYMENT_VERIFIED. -/
theorem C2_witness :
    createOrder exS "A" [⟨1, 1⟩] "CASH" = Except.ok (exCashOrder, exCashStore) ∧
    exCashOrder.status = (if ("CASH" : String) == "CASH" then OrderStatus.PAYMENT_VERIFIED
                          else OrderStatus.PENDING) :=
  ⟨by decide,
   C2_initial_status_cash_only exS "A" [⟨1, 1⟩] "CASH" exCashOrder exCashStore (by decide)⟩

/-- C10: the stock-sufficiency check is applied to each line independently
against the product's current, undecremented stock: a two-line order of the
same product, each line within stock even though the two quantities sum to
more than the stock, is accepted. -/
theorem C10_duplicate_lines_accepted (s : Store) (cn : String) (m : String)
    (pid : Nat) (p : Product) (q1 q2 : Nat) (setting : PaymentMethodSetting)
    (hp : s.findProduct pid = some p)
    (hm : s.findEnabledMethod m = some setting)
    (h1 : (q1 : Int) ≤ p.stock) (h2 : (q2 : Int) ≤ p.stock)
    (hover : p.stock < (q1 : Int) + (q2 : Int)) :
    (createOrder s cn [⟨pid, q1⟩, ⟨pid, q2⟩] m).isOk = true := by
  simp [createOrder, hm, validateItems, hp, not_lt.mpr h1, not_lt.mpr h2,
    Except.isOk, Except.toBool]

/-- C10 witness: stock 2, two lines of quantity 2 each, accepted. -/
theorem C10_witness :
    (createOrder lowStockS "A" [⟨1, 2⟩, ⟨1, 2⟩] "BANK_TRANSFER").isOk = true :=
  C10_duplicate_lines_accepted lowStockS "A" "BANK_TRANSFER" 1
    { id := 1, name := "P", price := 5, stock := 2, categoryName := some "TCG" }
    2 2 bankM (by decide) (by decide) (by decide) (by decide) (by decide)

/-- C7: `cancelOrder` succeeds, setting the status to CANCELLED, exactly when
the order's status is PENDING, PAYMENT_UPLOADED or PAYMENT_VERIFIED; in every
other status it fails with the invalid-state error and changes nothing. -/
theorem C7_cancelOrder_characterization (s : Store) (orderId : Nat) (order : Order)
    (hfind : s.findOrder orderId = some order) :
    ((cancelOrder s orderId).isOk = true ↔ cancellable order.status) ∧
    (cancellable order.status →
      cancelOrder s orderId =
        Except.ok ({ order with status := OrderStatus.CANCELLED },
          s.updateOrder { order with status := OrderStatus.CANCELLED })) ∧
    (¬ cancellable order.status →
      cancelOrder s orderId =
        Except.error
          "Only pending, payment uploaded, or payment verified orders can be cancelled" ∧
      storeAfter s (cancelOrder s orderId) = s) := by
  by_cases hc : cancellable order.status
  · have hd := hc
    unfold cancellable at hd
    have hok : cancelOrder s orderId =
        Except.ok ({ order with status := OrderStatus.CANCELLED },
          s.updateOrder { order with status := OrderStatus.CANCELLED }) := by
      simp [cancelOrder, hfind, if_pos hd]
    refine ⟨?_, fun _ => hok, fun hnc => absurd hc hnc⟩
    rw [hok]
    simp [Except.isOk, Except.toBool, hc]
  · have hd := hc
    unfold cancellable at hd
    have herr : cancelOrder s orderId =
        Except.error
          "Only pending, payment uploaded, or payment verified orders can be cancelled" := by
      simp [cancelOrder, hfind, if_neg hd]
    refine ⟨?_, fun hcc => absurd hcc hc, fun _ => ⟨herr, by simp [herr, storeAfter]⟩⟩
    rw [herr]
    simp [Except.isOk, Except.toBool, hc]

/-- C7 witness: cancelling the pending order of the example store. -/
theorem C7_witness :
    ((cancelOrder exS 2).isOk = true ↔ cancellable exOrder2.status) ∧
    (cancellable exOrder2.status →
      cancelOrder exS 2 =
        Except.ok ({ exOrder2 with status := OrderStatus.CANCELLED },
          exS.updateOrder { exOrder2 with status := OrderStatus.CANCELLED })) ∧
    (¬ cancellable exOrder2.status →
      cancelOrder exS 2 =
        Except.error
          "Only pending, payment uploaded, or payment verified orders can be cancelled" ∧
      storeAfter exS (cancelOrder exS 2) = exS) :=
  C7_cancelOrder_characterization exS 2 exOrder2 (by decide)

/-- C3 counterexample: starting from a store whose only product has stock
2 ≥ 0, a two-line CASH order of 2 + 2 units is accepted and completing it
drives the product's stock to -2: the sequence createOrder, completeOrder
does not preserve nonnegativity of stock. -/
theorem C3_counterexample :
    (∀ p ∈ lowStockS.products, 0 ≤ p.stock) ∧
    (createOrder lowStockS "A" [⟨1, 2⟩, ⟨1, 2⟩] "CASH").isOk = true ∧
    (completeOrder overSoldS1 1).isOk = true ∧
    ∃ p ∈ overSoldS2.products, p.stock < 0 := by decide

/-- C3 (amended): createOrder, uploadPaymentProof, verifyPayment and
cancelOrder never change any product's stock, so they preserve stock ≥ 0;
completeOrder preserves stock ≥ 0 only under the extra assumption that every
product's current stock covers the completed order's total requested
quantity — without it stock can go negative, as the counterexample shows. -/
theorem C3_stock_preservation :
    (∀ s cn items m o2 s2, createOrder s cn items m = Except.ok (o2, s2) →
      s2.products = s.products) ∧
    (∀ s oid f o2 s2, uploadPaymentProof s oid f = Except.ok (o2, s2) →
      s2.products = s.products) ∧
    (∀ s oid o2 s2, verifyPayment s oid = Except.ok (o2, s2) →
      s2.products = s.products) ∧
    (∀ s oid o2 s2, cancelOrder s oid = Except.ok (o2, s2) →
      s2.products = s.products) ∧
    (∀ s oid order o2 s2, s.findOrder oid = some order →
      completeOrder s oid = Except.ok (o2, s2) →
      (∀ p ∈ s.products, qtyFor p.id order.orderItems ≤ p.stock) →
      ∀ p2 ∈ s2.products, 0 ≤ p2.stock) := by
  refine ⟨?_, ?_, ?_, ?_, ?_⟩
  · intro s cn items m o2 s2 h
    obtain ⟨total, oitems, setting, _, _, _, _, hs⟩ := createOrder_ok_inv h
    rw [hs]
  · intro s oid f o2 s2 h
    obtain ⟨order1, _, _, _, hs⟩ := uploadPaymentProof_ok_inv h
    rw [hs]
    rfl
  · intro s oid o2 s2 h
    obtain ⟨order1, _, _, _, hs⟩ := verifyPayment_ok_inv h
    rw [hs]
    rfl
  · intro s oid o2 s2 h
    obtain ⟨order1, _, _, _, hs⟩ := cancelOrder_ok_inv h
    rw [hs]
    rfl
  · intro s oid order o2 s2 hfind h hcover p2 hp2
    obtain ⟨order1, hf1, _, _, hs⟩ := completeOrder_ok_inv h
    rw [hfind] at hf1
    cases hf1
    rw [hs] at hp2
    have hprod : ((applyDecrements s order.orderItems).updateOrder o2).products =
        s.products.map
          (fun p => { p with stock := p.stock - qtyFor p.id order.orderItems }) := by
      simpa [Store.updateOrder] using applyDecrements_products order.orderItems s
    rw [hprod] at hp2
    obtain ⟨p, hp, hpe⟩ := List.mem_map.mp hp2
    rw [← hpe]
    simpa [sub_nonneg] using hcover p hp

/-- C3 witness: completing the verified 4-unit order in the example store,
whose product has stock 10 ≥ 4, leaves every stock nonnegative. -/
theorem C3_witness :
    completeOrder exS 1 = Except.ok (exCompletedOrder, exCompletedStore) ∧
    ∀ p2 ∈ exCompletedStore.products, 0 ≤ p2.stock :=
  ⟨by decide,
   C3_stock_preservation.2.2.2.2 exS 1 exOrder1 exCompletedOrder exCompletedStore
     (by decide) (by decide) (by decide)⟩

/-- C5: a created order's totalAmount is the sum of its items' subtotals;
each item's subtotal is the product's price at creation time times the
requested quantity (a snapshot); and no later operation — the four lifecycle
transitions or a product price change — ever alters a stored order's
totalAmount or items. -/
theorem C5_total_snapshot :
    (∀ s cn items m o2 s2, createOrder s cn items m = Except.ok (o2, s2) →
      o2.totalAmount = (o2.orderItems.map (fun it => it.subtotal)).sum ∧
      List.Forall₂ (fun (inp : OrderItemInput) (it : OrderItem) =>
        ∃ p, s.findProduct inp.productId = some p ∧
          it.productId = p.id ∧ it.quantity = inp.quantity ∧
          it.subtotal = p.price * (inp.quantity : Int)) items o2.orderItems) ∧
    (∀ s pid np s2, updateProductPrice s pid np = Except.ok s2 →
      s2.orders = s.orders) ∧
    (∀ s oid f o2 s2, (s.orders.map (fun o => o.id)).Nodup →
      uploadPaymentProof s oid f = Except.ok (o2, s2) →
      ∀ o1 ∈ s.orders, ∃ o3 ∈ s2.orders, o3.id = o1.id ∧
        o3.totalAmount = o1.totalAmount ∧ o3.orderItems = o1.orderItems) ∧
    (∀ s oid o2 s2, (s.orders.map (fun o => o.id)).Nodup →
      verifyPayment s oid = Except.ok (o2, s2) →
      ∀ o1 ∈ s.orders, ∃ o3 ∈ s2.orders, o3.id = o1.id ∧
        o3.totalAmount = o1.totalAmount ∧ o3.orderItems = o1.orderItems) ∧
    (∀ s oid o2 s2, (s.orders.map (fun o => o.id)).Nodup →
      completeOrder s oid = Except.ok (o2, s2) →
      ∀ o1 ∈ s.orders, ∃ o3 ∈ s2.orders, o3.id = o1.id ∧
        o3.totalAmount = o1.totalAmount ∧ o3.orderItems = o1.orderItems) ∧
    (∀ s oid o2 s2, (s.orders.map (fun o => o.id)).Nodup →
      cancelOrder s oid = Except.ok (o2, s2) →
      ∀ o1 ∈ s.orders, ∃ o3 ∈ s2.orders, o3.id = o1.id ∧
        o3.totalAmount = o1.totalAmount ∧ o3.orderItems = o1.orderItems) := by
  refine ⟨?_, ?_, ?_, ?_, ?_, ?_⟩
  · intro s cn items m o2 s2 h
    obtain ⟨total, oitems, setting, _, _, hv, ho, _⟩ := createOrder_ok_inv h
    obtain ⟨hsum, hall⟩ := validateItems_ok_inv hv
    subst ho
    refine ⟨hsum, ?_⟩
    refine hall.imp ?_
    intro inp it ⟨p, hp, _, hrest⟩
    exact ⟨p, hp, hrest⟩
  · intro s pid np s2 h
    unfold updateProductPrice at h
    split at h
    · simp at h
    · simp only [Except.ok.injEq] at h
      rw [← h]
  · intro s oid f o2 s2 hnodup h
    obtain ⟨order1, hf1, _, ho, hs⟩ := uploadPaymentProof_ok_inv h
    rw [hs]
    exact map_update_preserves hnodup (findOrder_mem hf1).1
      (by rw [ho]) (by rw [ho]) (by rw [ho])
  · intro s oid o2 s2 hnodup h
    obtain ⟨order1, hf1, _, ho, hs⟩ := verifyPayment_ok_inv h
    rw [hs]
    exact map_update_preserves hnodup (findOrder_mem hf1).1
      (by rw [ho]) (by rw [ho]) (by rw [ho])
  · intro s oid o2 s2 hnodup h
    obtain ⟨order1, hf1, _, ho, hs⟩ := completeOrder_ok_inv h
    rw [hs]
    have hford : ((applyDecrements s order1.orderItems).updateOrder o2).orders =
        s.orders.map (fun x => if x.id == o2.id then o2 else x) := by
      simp [Store.updateOrder, applyDecrements_orders]
    rw [hford]
    exact map_update_preserves hnodup (findOrder_mem hf1).1
      (by rw [ho]) (by rw [ho]) (by rw [ho])
  · intro s oid o2 s2 hnodup h
    obtain ⟨order1, hf1, _, ho, hs⟩ := cancelOrder_ok_inv h
    rw [hs]
    exact map_update_preserves hnodup (findOrder_mem hf1).1
      (by rw [ho]) (by rw [ho]) (by rw [ho])

/-- C5 witness: the CASH example order's total equals the sum of its items'
subtotals. -/
theorem C5_witness :
    createOrder exS "A" [⟨1, 1⟩] "CASH" = Except.ok (exCashOrder, exCashStore) ∧
    exCashOrder.totalAmount =
      (exCashOrder.orderItems.map (fun it => it.subtotal)).sum :=
  ⟨by decide,
   (C5_total_snapshot.1 exS "A" [⟨1, 1⟩] "CASH" exCashOrder exCashStore (by decide)).1⟩

/-- C6: when createOrder fails, the transaction leaves the store exactly as
before, and the error is one of: empty item list, unavailable payment
method, product-not-found naming the missing id, or insufficient stock
naming the product. -/
theorem C6_createOrder_failure_atomic (s : Store) (cn : String)
    (items : List OrderItemInput) (m : String) (e : String)
    (h : createOrder s cn items m = Except.error e) :
    storeAfter s (createOrder s cn items m) = s ∧
    (e = "Order must contain at least one item" ∨
     e = "Payment method " ++ m ++ " is not available" ∨
     (∃ inp ∈ items, s.findProduct inp.productId = none ∧
        e = "Product with ID " ++ toString inp.productId ++ " not found") ∨
     (∃ inp ∈ items, ∃ p, s.findProduct inp.productId = some p ∧
        p.stock < (inp.quantity : Int) ∧
        e = "Insufficient stock for product: " ++ p.name)) := by
  refine ⟨by simp [h, storeAfter], ?_⟩
  unfold createOrder at h
  split at h
  · simp only [Except.error.injEq] at h
    exact Or.inl h.symm
  · split at h
    · simp only [Except.error.injEq] at h
      exact Or.inr (Or.inl h.symm)
    · split at h
      next e2 hv =>
        simp only [Except.error.injEq] at h
        rcases validateItems_error_inv (h ▸ hv) with h1 | h2
        · exact Or.inr (Or.inr (Or.inl h1))
        · exact Or.inr (Or.inr (Or.inr h2))
      · simp at h

/-- C6 witness: requesting 3 units of a stock-2 product fails with the
insufficient-stock error naming the product and persists nothing. -/
theorem C6_witness :
    createOrder lowStockS "A" [⟨1, 3⟩] "BANK_TRANSFER" =
      Except.error "Insufficient stock for product: P" ∧
    (storeAfter lowStockS (createOrder lowStockS "A" [⟨1, 3⟩] "BANK_TRANSFER") =
      lowStockS ∧
     ("Insufficient stock for product: P" = "Order must contain at least one item" ∨
      "Insufficient stock for product: P" =
        "Payment method " ++ "BANK_TRANSFER" ++ " is not available" ∨
      (∃ inp ∈ [(⟨1, 3⟩ : OrderItemInput)], lowStockS.findProduct inp.productId = none ∧
        "Insufficient stock for product: P" =
          "Product with ID " ++ toString inp.productId ++ " not found") ∨
      (∃ inp ∈ [(⟨1, 3⟩ : OrderItemInput)], ∃ p,
        lowStockS.findProduct inp.productId = some p ∧
        p.stock < (inp.quantity : Int) ∧
        "Insufficient stock for product: P" =
          "Insufficient stock for product: " ++ p.name))) :=
  ⟨by decide,
   C6_createOrder_failure_atomic lowStockS "A" [⟨1, 3⟩] "BANK_TRANSFER"
     "Insufficient stock for product: P" (by decide)⟩

/-- C8: COMPLETED and CANCELLED are terminal: on such an order each of
uploadPaymentProof, verifyPayment, completeOrder and cancelOrder fails, and
no successful operation — on this or any other order, or a new order's
creation — ever removes or alters the stored terminal order. -/
theorem C8_terminal_states (s : Store) (oid : Nat) (order : Order) (f : String)
    (hfind : s.findOrder oid = some order)
    (hterm : isTerminal order.status)
    (hnodup : (s.orders.map (fun o => o.id)).Nodup) :
    (∃ e, uploadPaymentProof s oid f = Except.error e) ∧
    (∃ e, verifyPayment s oid = Except.error e) ∧
    (∃ e, completeOrder s oid = Except.error e) ∧
    (∃ e, cancelOrder s oid = Except.error e) ∧
    (∀ cn items m o2 s2, createOrder s cn items m = Except.ok (o2, s2) →
      order ∈ s2.orders) ∧
    (∀ oid2 f2 o2 s2, uploadPaymentProof s oid2 f2 = Except.ok (o2, s2) →
      order ∈ s2.orders) ∧
    (∀ oid2 o2 s2, verifyPayment s oid2 = Except.ok (o2, s2) → order ∈ s2.orders) ∧
    (∀ oid2 o2 s2, completeOrder s oid2 = Except.ok (o2, s2) → order ∈ s2.orders) ∧
    (∀ oid2 o2 s2, cancelOrder s oid2 = Except.ok (o2, s2) → order ∈ s2.orders) := by
  have h1 : order.status ≠ OrderStatus.PENDING := by
    rcases hterm with h | h <;> simp [h]
  have h2 : order.status ≠ OrderStatus.PAYMENT_UPLOADED := by
    rcases hterm with h | h <;> simp [h]
  have h3 : order.status ≠ OrderStatus.PAYMENT_VERIFIED := by
    rcases hterm with h | h <;> simp [h]
  have hordmem := (findOrder_mem hfind).1
  refine ⟨⟨"Payment proof can only be uploaded for pending orders",
      by simp [uploadPaymentProof, hfind, h1]⟩, ?_,
    ⟨"Only verified orders can be completed", by simp [completeOrder, hfind, h3]⟩,
    ⟨"Only pending, payment uploaded, or payment verified orders can be cancelled",
      by simp [cancelOrder, hfind, h1, h2, h3]⟩, ?_, ?_, ?_, ?_, ?_⟩
  · cases hm : s.findMethod order.paymentMethod with
    | none =>
      exact ⟨"Payment method " ++ order.paymentMethod ++ " configuration not found",
        by simp [verifyPayment, hfind, hm]⟩
    | some setting =>
      by_cases hrp : setting.requiresProof
      · exact ⟨"Only orders with uploaded payment can be verified",
          by simp [verifyPayment, hfind, hm, hrp, h2]⟩
      · exact ⟨"Only pending or already verified orders can be processed",
          by simp [verifyPayment, hfind, hm, hrp, h1, h3]⟩
  · intro cn items m o2 s2 h
    obtain ⟨total, oitems, setting, _, _, _, _, hs⟩ := createOrder_ok_inv h
    rw [hs]
    exact List.mem_append_left _ hordmem
  · intro oid2 f2 o2 s2 h
    obtain ⟨order1, hf1, hst1, ho, hs⟩ := uploadPaymentProof_ok_inv h
    rw [hs]
    have hnt : ¬ isTerminal order1.status := by simp [isTerminal, hst1]
    exact map_update_keeps_terminal hnodup (findOrder_mem hf1).1 (by rw [ho]) hnt
      order hordmem hterm
  · intro oid2 o2 s2 h
    obtain ⟨order1, hf1, hst1, ho, hs⟩ := verifyPayment_ok_inv h
    rw [hs]
    have hnt : ¬ isTerminal order1.status := by
      rcases hst1 with h | h | h <;> simp [isTerminal, h]
    exact map_update_keeps_terminal hnodup (findOrder_mem hf1).1 (by rw [ho]) hnt
      order hordmem hterm
  · intro oid2 o2 s2 h
    obtain ⟨order1, hf1, hst1, ho, hs⟩ := completeOrder_ok_inv h
    have hord : ((applyDecrements s order1.orderItems).updateOrder o2).orders =
        s.orders.map (fun x => if x.id == o2.id then o2 else x) := by
      simp [Store.updateOrder, applyDecrements_orders]
    rw [hs, hord]
    have hnt : ¬ isTerminal order1.status := by simp [isTerminal, hst1]
    exact map_update_keeps_terminal hnodup (findOrder_mem hf1).1 (by rw [ho]) hnt
      order hordmem hterm
  · intro oid2 o2 s2 h
    obtain ⟨order1, hf1, hst1, ho, hs⟩ := cancelOrder_ok_inv h
    rw [hs]
    have hnt : ¬ isTerminal order1.status := by
      rcases hst1 with h | h | h <;> simp [isTerminal, h]
    exact map_update_keeps_terminal hnodup (findOrder_mem hf1).1 (by rw [ho]) hnt
      order hordmem hterm

/-- C8 witness: the completed order of the example store admits no further
transition. -/
theorem C8_witness :
    (∃ e, uploadPaymentProof exS 3 "g.png" = Except.error e) ∧
    (∃ e, verifyPayment exS 3 = Except.error e) ∧
    (∃ e, completeOrder exS 3 = Except.error e) ∧
    (∃ e, cancelOrder exS 3 = Except.error e) ∧
    (∀ cn items m o2 s2, createOrder exS cn items m = Except.ok (o2, s2) →
      exOrder3 ∈ s2.orders) ∧
    (∀ oid2 f2 o2 s2, uploadPaymentProof exS oid2 f2 = Except.ok (o2, s2) →
      exOrder3 ∈ s2.orders) ∧
    (∀ oid2 o2 s2, verifyPayment exS oid2 = Except.ok (o2, s2) →
      exOrder3 ∈ s2.orders) ∧
    (∀ oid2 o2 s2, completeOrder exS oid2 = Except.ok (o2, s2) →
      exOrder3 ∈ s2.orders) ∧
    (∀ oid2 o2 s2, cancelOrder exS oid2 = Except.ok (o2, s2) →
      exOrder3 ∈ s2.orders) :=
  C8_terminal_states exS 3 exOrder3 "g.png" (by decide) (by decide) (by decide)

/-- C9 counterexample: in `reportS` the daily report's payment-method
breakdown lists amounts [5, 10] in grouping order — not sorted descending by
amount, refuting the claim that all three breakdowns are sorted. -/
theorem C9_counterexample :
    ¬ ((getDailySalesReport reportS 0).paymentMethods.Pairwise
        (fun a b => b.amount ≤ a.amount)) := by decide

/-- C9 (amended): for every store and date, the daily report's product and
category breakdowns are each sorted in descending order of revenue; the
payment-method breakdown is grouped but left in grouping order, not sorted
by amount. -/
theorem C9_product_category_sorted (s : Store) (date : Nat) :
    ((getDailySalesReport s date).productSales.Pairwise
      (fun a b => b.revenue ≤ a.revenue)) ∧
    ((getDailySalesReport s date).categorySales.Pairwise
      (fun a b => b.revenue ≤ a.revenue)) :=
  ⟨sortDescBy_pairwise _ _, sortDescBy_pairwise _ _⟩

end TcgPos
